/-
Verification of the client-side UI widgets of the `shopify-theme-claudia`
storefront theme against its natural-language specification.

The widgets are shallowly embedded:
  * `cartDrawer`, `productGallery`, `alpineAnnouncement` are translated from
    `src/assets/alpine-components.js`;
  * `alpineHeader` is translated from the component file embedded in
    `src/tailwind.config.js`.

Modelling conventions:
  * JS numbers that are used as integers (indices, counts, scroll offsets)
    become `Int`.
  * `null`/`undefined`-able fields become `Option _`.
  * A `fetch` call is modelled by passing the outcome of the network round
    trip (`FetchOutcome`) as an explicit argument to the method.
  * `setInterval` is modelled by a fresh-id allocator in an explicit
    environment; browser interval ids are positive, so the JS truthiness
    test `if (this.intervalId)` is modelled as `Option.isSome`.
  * The browser cookie jar is modelled as a list of (name, value, days)
    entries; `document.cookie` reads serialize it with "; " separators,
    exactly the shape `getCookie` parses.
-/
import Mathlib

namespace Claudia

/-! ## JS string and number primitives used by the components -/

/-- JS `a % b` (truncated remainder: the result has the sign of the
dividend).  All call sites in the theme use a positive divisor and this
model is faithful for those; `b = 0` (JS `NaN`) is outside the modelled
range. -/
def jsMod (a b : Int) : Int :=
  if 0 ≤ a then a % (b.natAbs : Int) else -((-a) % (b.natAbs : Int))

/-- Worker for `jsSplitCh`, structurally recursive on a fuel bound so that
concrete instances reduce definitionally.  The fuel is always instantiated
with the length of the list being split, which suffices: each step consumes
at least one character. -/
def jsSplitChF (sep : List Char) : Nat → List Char → List (List Char)
  | _, [] => [[]]
  | 0, l => [l]
  | fuel + 1, c :: rest =>
    if sep.isPrefixOf (c :: rest) ∧ sep ≠ [] then
      [] :: jsSplitChF sep fuel (rest.drop (sep.length - 1))
    else
      (jsSplitChF sep fuel rest).modifyHead (fun h => c :: h)

/-- JS `String.prototype.split` on a non-empty separator, over `List Char`:
split at the leftmost-first non-overlapping occurrences of `sep`.  (An
empty separator returns the list unsplit; no call site uses one.) -/
def jsSplitCh (sep l : List Char) : List (List Char) :=
  jsSplitChF sep l.length l

/-- JS `str.split(sep)` on Lean strings, via `jsSplitCh`. -/
def jsSplit (sep str : String) : List String :=
  (jsSplitCh sep.data str.data).map List.asString

/-! ## Cart drawer (`Alpine.data('cartDrawer', ...)`) -/

/-- The parsed JSON body of a Shopify cart response, treated as an opaque
value by the component (it is stored and re-emitted wholesale). -/
structure Cart where
  json : String
deriving DecidableEq, Repr

/-- An HTTP response as seen after `await fetch(...)`: a status code and the
parsed JSON body.  `response.ok` is `200 ≤ status < 300`. -/
structure HttpResponse where
  status : Nat
  body : Cart
deriving DecidableEq, Repr

/-- Outcome of a `fetch` round trip: either an HTTP response (of any
status) or a transport error (rejected promise). -/
inductive FetchOutcome where
  | response (r : HttpResponse)
  | netError
deriving DecidableEq, Repr

/-- `response.ok`. -/
def HttpResponse.ok (r : HttpResponse) : Bool :=
  decide (200 ≤ r.status ∧ r.status < 300)

/-- State of the `cartDrawer` component. -/
structure CartState where
  isOpen : Bool
  isLoading : Bool
  cart : Option Cart
  error : Option String
deriving DecidableEq, Repr

/-- DOM custom events dispatched on `window` by the cart drawer. -/
inductive DomEvent where
  | cartUpdated (detail : Cart)
deriving DecidableEq, Repr

/-- `refreshCart()`: sets loading, clears the error, fetches `/cart.js`;
on an ok response stores the body in `cart`, otherwise (thrown non-ok
status or transport error) sets the user-facing error string; `finally`
clears loading. -/
def refreshCart (s : CartState) (out : FetchOutcome) : CartState :=
  let s := { s with isLoading := true, error := none }
  let s :=
    match out with
    | .response r =>
      if r.ok then { s with cart := some r.body }
      else { s with error := some "Unable to load cart. Please refresh the page." }
    | .netError => { s with error := some "Unable to load cart. Please refresh the page." }
  { s with isLoading := false }

/-- `updateQuantity(lineItemKey, quantity)`: POSTs to `/cart/change.js`; on
an ok response replaces `cart` with the response body and dispatches a
`cart:updated` event carrying it; otherwise sets the error string.  Returns
the new state together with the list of dispatched events.  The request
parameters only shape the request body, which the modelled outcome
abstracts. -/
def updateQuantity (s : CartState) (lineItemKey : String) (quantity : Int)
    (out : FetchOutcome) : CartState × List DomEvent :=
  let _ := lineItemKey
  let _ := quantity
  let s := { s with isLoading := true, error := none }
  match out with
  | .response r =>
    if r.ok then
      ({ s with cart := some r.body, isLoading := false }, [.cartUpdated r.body])
    else
      ({ s with error := some "Unable to update cart. Please try again.", isLoading := false }, [])
  | .netError =>
    ({ s with error := some "Unable to update cart. Please try again.", isLoading := false }, [])

/-- `removeItem(lineItemKey)` is `updateQuantity(lineItemKey, 0)`. -/
def removeItem (s : CartState) (lineItemKey : String) (out : FetchOutcome) :
    CartState × List DomEvent :=
  updateQuantity s lineItemKey 0 out

/-- A fetch outcome counts as failing when it is a transport error or a
non-2xx response. -/
def FetchOutcome.failed : FetchOutcome → Bool
  | .response r => !r.ok
  | .netError => true

/-! ## Product gallery (`Alpine.data('productGallery', ...)`) -/

/-- An image reference as handed to the gallery.  The component never looks
inside it; as a JS object it is always truthy. -/
structure ImageRef where
  url : String
deriving DecidableEq, Repr

/-- State of the `productGallery` component. -/
structure GalleryState where
  currentIndex : Int
  images : List ImageRef
deriving DecidableEq, Repr

/-- JS array indexing `arr[i]` with an integer index: `undefined` (here
`none`) outside `[0, length)`. -/
def jsIndex {α : Type} (l : List α) (i : Int) : Option α :=
  if 0 ≤ i then l.get? i.toNat else none

/-- Getter `currentImage`: `this.images[this.currentIndex] || null`.  Image
objects are truthy, so `|| null` only converts `undefined` to `null`. -/
def currentImage (s : GalleryState) : Option ImageRef :=
  jsIndex s.images s.currentIndex

/-- Getter `isFirst`: `this.currentIndex === 0`. -/
def GalleryState.isFirst (s : GalleryState) : Bool :=
  decide (s.currentIndex = 0)

/-- Getter `isLast`: `this.currentIndex === this.images.length - 1`. -/
def GalleryState.isLast (s : GalleryState) : Bool :=
  decide (s.currentIndex = (s.images.length : Int) - 1)

/-- `next()`: increment, or loop back to the first image from the last. -/
def galleryNext (s : GalleryState) : GalleryState :=
  if ¬ s.isLast then { s with currentIndex := s.currentIndex + 1 }
  else { s with currentIndex := 0 }

/-- `previous()`: decrement, or loop to the last image from the first. -/
def galleryPrevious (s : GalleryState) : GalleryState :=
  if ¬ s.isFirst then { s with currentIndex := s.currentIndex - 1 }
  else { s with currentIndex := (s.images.length : Int) - 1 }

/-- `goTo(index)`: set the index only when `0 ≤ index < images.length`. -/
def galleryGoTo (s : GalleryState) (index : Int) : GalleryState :=
  if 0 ≤ index ∧ index < (s.images.length : Int) then
    { s with currentIndex := index }
  else s

/-! ## Announcement bar (`Alpine.data('alpineAnnouncement', ...)`),
version of `src/assets/alpine-components.js` (with pause-on-hover) -/

/-- State of the `alpineAnnouncement` component. -/
structure AnnState where
  currentIndex : Int
  totalMessages : Int
  rotationSpeed : Int
  intervalId : Option Nat
  isPaused : Bool
  isClosed : Bool
  sectionId : String
  showCloseButton : Bool
deriving DecidableEq, Repr

/-- One cookie in the browser jar: name, value and the expiry horizon (in
days) it was stored with.  Wall-clock expiry itself is outside the model. -/
structure CookieEntry where
  name : String
  value : String
  days : Int
deriving DecidableEq, Repr

/-- Browser-side environment: the cookie jar and the `setInterval` id
allocator. -/
structure Env where
  cookieJar : List CookieEntry
  nextTimerId : Nat
deriving DecidableEq, Repr

/-- The `document.cookie` getter: entries serialized as
`name1=value1; name2=value2; ...`. -/
def cookieDocString : List CookieEntry → String
  | [] => ""
  | [e] => e.name ++ "=" ++ e.value
  | e :: rest => e.name ++ "=" ++ e.value ++ "; " ++ cookieDocString rest

/-- `getCookie(name)` from the source: prepend `"; "`, split on
`"; name="`, and when that yields exactly two parts take the tail part up
to the next `';'`. -/
def getCookie (name doc : String) : Option String :=
  if (jsSplit ("; " ++ name ++ "=") ("; " ++ doc)).length = 2 then
    (jsSplit ";"
      (((jsSplit ("; " ++ name ++ "=") ("; " ++ doc)).getLast?).getD "")).head?
  else
    none

/-- `setCookie(name, value, days)`: the browser replaces any cookie of the
same name and records the new value (with its expiry horizon). -/
def setCookie (name value : String) (days : Int) (jar : List CookieEntry) :
    List CookieEntry :=
  jar.filter (fun e => decide (e.name ≠ name)) ++ [⟨name, value, days⟩]

/-- The dismissal cookie name used by the component:
`announcement-<sectionId>-closed`. -/
def annCookieName (sectionId : String) : String :=
  "announcement-" ++ sectionId ++ "-closed"

/-- `startRotation()`: clear any existing interval, then allocate a fresh
one.  The old id, when present, is cancelled and overwritten. -/
def startRotation (s : AnnState) (e : Env) : AnnState × Env :=
  ({ s with intervalId := some e.nextTimerId },
   { e with nextTimerId := e.nextTimerId + 1 })

/-- `stopRotation()`: clear the interval and null the id (only when one is
set). -/
def stopRotation (s : AnnState) : AnnState :=
  if s.intervalId.isSome then { s with intervalId := none } else s

/-- `pauseRotation()` (mouse enter). -/
def pauseRotation (s : AnnState) : AnnState :=
  { s with isPaused := true }

/-- `resumeRotation()` (mouse leave). -/
def resumeRotation (s : AnnState) : AnnState :=
  { s with isPaused := false }

/-- `next()`: `(currentIndex + 1) % totalMessages`. -/
def annNext (s : AnnState) : AnnState :=
  { s with currentIndex := jsMod (s.currentIndex + 1) s.totalMessages }

/-- `previous()`: `(currentIndex - 1 + totalMessages) % totalMessages`. -/
def annPrevious (s : AnnState) : AnnState :=
  { s with currentIndex := jsMod (s.currentIndex - 1 + s.totalMessages) s.totalMessages }

/-- One firing of the `setInterval` callback installed by
`startRotation`: advance only when not paused. -/
def annTick (s : AnnState) : AnnState :=
  if s.isPaused then s else annNext s

/-- `init()`: read the dismissal cookie (when the close button is shown),
then start rotation when not closed and more than one message exists.  The
keyboard-listener registration has no state effect and is omitted. -/
def annInit (s : AnnState) (e : Env) : AnnState × Env :=
  let s :=
    if s.showCloseButton then
      { s with isClosed :=
          decide (getCookie (annCookieName s.sectionId) (cookieDocString e.cookieJar)
            = some "true") }
    else s
  if ¬ s.isClosed = true ∧ 1 < s.totalMessages then startRotation s e else (s, e)

/-- `goTo(index)`: when in range, set the index and (when more than one
message exists) restart the rotation timer. -/
def annGoTo (s : AnnState) (e : Env) (index : Int) : AnnState × Env :=
  if 0 ≤ index ∧ index < s.totalMessages then
    let s := { s with currentIndex := index }
    if 1 < s.totalMessages then startRotation (stopRotation s) e else (s, e)
  else (s, e)

/-- `closeAnnouncement()`: mark closed, stop rotation, persist the
dismissal cookie for 30 days. -/
def closeAnnouncement (s : AnnState) (e : Env) : AnnState × Env :=
  let s := stopRotation { s with isClosed := true }
  (s, { e with cookieJar := setCookie (annCookieName s.sectionId) "true" 30 e.cookieJar })

/-- `destroy()`: stop rotation. -/
def annDestroy (s : AnnState) : AnnState :=
  stopRotation s

/-- The state of a freshly attached `alpineAnnouncement` widget, before
`init()` runs: the data-object literal with its default field values. -/
def freshAnn (totalMessages rotationSpeed : Int) (sectionId : String)
    (showCloseButton : Bool) : AnnState :=
  { currentIndex := 0
    totalMessages := totalMessages
    rotationSpeed := rotationSpeed
    intervalId := none
    isPaused := false
    isClosed := false
    sectionId := sectionId
    showCloseButton := showCloseButton }

/-! ### Operation sequences over the announcement widget (for the
rotation-state invariant) -/

/-- The externally invokable operations of the announcement widget. -/
inductive AnnOp where
  | initOp
  | startOp
  | stopOp
  | pauseOp
  | resumeOp
  | nextOp
  | prevOp
  | goToOp (index : Int)
  | closeOp
  | destroyOp
deriving DecidableEq, Repr

/-- A widget run: component state, browser environment, and a ghost flag
recording that rotation was manually stopped (`stopRotation`,
`closeAnnouncement`, `destroy`) with no restart since.  A restart is any
operation that allocates a new interval (visible as a bump of the timer-id
allocator). -/
structure AnnRun where
  st : AnnState
  env : Env
  stopped : Bool
deriving DecidableEq, Repr

/-- Apply one operation to a run, maintaining the ghost flag. -/
def applyOp (op : AnnOp) (r : AnnRun) : AnnRun :=
  match op with
  | .initOp =>
    let p := annInit r.st r.env
    { st := p.1, env := p.2,
      stopped := if p.2.nextTimerId = r.env.nextTimerId then r.stopped else false }
  | .startOp =>
    let p := startRotation r.st r.env
    { st := p.1, env := p.2, stopped := false }
  | .stopOp => { r with st := stopRotation r.st, stopped := true }
  | .pauseOp => { r with st := pauseRotation r.st }
  | .resumeOp => { r with st := resumeRotation r.st }
  | .nextOp => { r with st := annNext r.st }
  | .prevOp => { r with st := annPrevious r.st }
  | .goToOp i =>
    let p := annGoTo r.st r.env i
    { st := p.1, env := p.2,
      stopped := if p.2.nextTimerId = r.env.nextTimerId then r.stopped else false }
  | .closeOp =>
    let p := closeAnnouncement r.st r.env
    { st := p.1, env := p.2, stopped := true }
  | .destroyOp => { r with st := annDestroy r.st, stopped := true }

/-- Run a list of operations left to right. -/
def runOps (ops : List AnnOp) (r : AnnRun) : AnnRun :=
  ops.foldl (fun r op => applyOp op r) r

/-- The rotation-state invariant claimed by the specification, as stated:
the interval id is non-null iff more than one message exists, the widget is
not closed, and rotation was not manually stopped without a restart. -/
def claimedRotationInv (r : AnnRun) : Bool :=
  r.st.intervalId.isSome
    == (decide (1 < r.st.totalMessages) && !r.st.isClosed && !r.stopped)

/-- Whether an operation is a `goTo` (used to state the side condition on
runs below). -/
def opIsGoTo : AnnOp → Bool
  | AnnOp.goToOp _ => true
  | _ => false

/-- Side condition on a run: `goTo` is only invoked while the widget is not
closed. -/
def goToOnlyWhenOpen : List AnnOp → AnnRun → Bool
  | [], _ => true
  | op :: rest, r =>
    (!(opIsGoTo op) || !r.st.isClosed) && goToOnlyWhenOpen rest (applyOp op r)

/-- Strengthened inductive invariant for the announcement widget: the
claimed iff, together with the auxiliary fact that a readable dismissal
cookie forces `isClosed` (needed to rule out a re-`init` that discovers
the cookie while rotation runs). -/
def annInv (r : AnnRun) : Prop :=
  (r.st.intervalId.isSome = true ↔
    (1 < r.st.totalMessages ∧ r.st.isClosed = false ∧ r.stopped = false)) ∧
  (r.st.showCloseButton = true →
    getCookie (annCookieName r.st.sectionId) (cookieDocString r.env.cookieJar)
      = some "true" →
    r.st.isClosed = true)

/-! ## Header (`Alpine.data('alpineHeader', ...)`), from the component file
embedded in `src/tailwind.config.js` -/

/-- State of the `alpineHeader` component. -/
structure HeaderState where
  mobileMenuOpen : Bool
  isSticky : Bool
  stickyEnabled : Bool
  headerOffsetTop : Int
deriving DecidableEq, Repr

/-- `handleScroll()`: `isSticky = scrollTop >= headerOffsetTop`, where
`scrollTop` is the current scroll offset read from the window. -/
def handleScroll (scrollTop : Int) (s : HeaderState) : HeaderState :=
  { s with isSticky := decide (s.headerOffsetTop ≤ scrollTop) }

/-! # Theorems -/

/-! ## Cart drawer claims -/

/-- C1: on a failing mutation call `updateQuantity` keeps the snapshot and
sets a non-null error; on a successful one it installs the response body
wholesale and dispatches `cart:updated` with that body. -/
theorem updateQuantity_failure_keeps_cart_success_replaces
    (s : CartState) (key : String) (qty : Int) (out : FetchOutcome) :
    (out.failed = true →
      (updateQuantity s key qty out).1.cart = s.cart ∧
      (updateQuantity s key qty out).1.error.isSome = true) ∧
    (∀ r : HttpResponse, out = .response r → r.ok = true →
      (updateQuantity s key qty out).1.cart = some r.body ∧
      (updateQuantity s key qty out).2 = [.cartUpdated r.body]) := by
  constructor
  · intro hfail
    cases out with
    | response r =>
      simp [FetchOutcome.failed] at hfail
      simp [updateQuantity, hfail]
    | netError => simp [updateQuantity]
  · intro r hr hok
    subst hr
    simp [updateQuantity, hok]

/-- Witness for C1 at concrete inputs: a 500 response and a 200 response. -/
theorem updateQuantity_failure_keeps_cart_success_replaces_witness :
    ((updateQuantity ⟨false, false, some ⟨"old"⟩, none⟩ "k" 2
        (.response ⟨500, ⟨"{}"⟩⟩)).1.cart = some ⟨"old"⟩ ∧
      (updateQuantity ⟨false, false, some ⟨"old"⟩, none⟩ "k" 2
        (.response ⟨500, ⟨"{}"⟩⟩)).1.error.isSome = true) ∧
    ((updateQuantity ⟨false, false, some ⟨"old"⟩, none⟩ "k" 2
        (.response ⟨200, ⟨"new"⟩⟩)).1.cart = some ⟨"new"⟩ ∧
      (updateQuantity ⟨false, false, some ⟨"old"⟩, none⟩ "k" 2
        (.response ⟨200, ⟨"new"⟩⟩)).2 = [.cartUpdated ⟨"new"⟩]) :=
  ⟨(updateQuantity_failure_keeps_cart_success_replaces
      ⟨false, false, some ⟨"old"⟩, none⟩ "k" 2 (.response ⟨500, ⟨"{}"⟩⟩)).1
      (by decide),
   (updateQuantity_failure_keeps_cart_success_replaces
      ⟨false, false, some ⟨"old"⟩, none⟩ "k" 2 (.response ⟨200, ⟨"new"⟩⟩)).2
      ⟨200, ⟨"new"⟩⟩ rfl (by decide)⟩

/-- C2: `refreshCart` on a successful fetch replaces the snapshot with the
response body and leaves the error null; on a failing fetch it keeps the
previous snapshot and sets a non-null error string. -/
theorem refreshCart_success_replaces_failure_preserves
    (s : CartState) (out : FetchOutcome) :
    (∀ r : HttpResponse, out = .response r → r.ok = true →
      (refreshCart s out).cart = some r.body ∧ (refreshCart s out).error = none) ∧
    (out.failed = true →
      (refreshCart s out).cart = s.cart ∧
      (refreshCart s out).error.isSome = true) := by
  constructor
  · intro r hr hok
    subst hr
    simp [refreshCart, hok]
  · intro hfail
    cases out with
    | response r =>
      simp [FetchOutcome.failed] at hfail
      simp [refreshCart, hfail]
    | netError => simp [refreshCart]

/-- Witness for C2 at concrete inputs: a 204 response and a network error. -/
theorem refreshCart_success_replaces_failure_preserves_witness :
    ((refreshCart ⟨true, false, some ⟨"stale"⟩, some "e"⟩
        (.response ⟨204, ⟨"fresh"⟩⟩)).cart = some ⟨"fresh"⟩ ∧
      (refreshCart ⟨true, false, some ⟨"stale"⟩, some "e"⟩
        (.response ⟨204, ⟨"fresh"⟩⟩)).error = none) ∧
    ((refreshCart ⟨true, false, some ⟨"stale"⟩, some "e"⟩ .netError).cart
        = some ⟨"stale"⟩ ∧
      (refreshCart ⟨true, false, some ⟨"stale"⟩, some "e"⟩
        .netError).error.isSome = true) :=
  ⟨(refreshCart_success_replaces_failure_preserves
      ⟨true, false, some ⟨"stale"⟩, some "e"⟩ (.response ⟨204, ⟨"fresh"⟩⟩)).1
      ⟨204, ⟨"fresh"⟩⟩ rfl (by decide),
   (refreshCart_success_replaces_failure_preserves
      ⟨true, false, some ⟨"stale"⟩, some "e"⟩ .netError).2 (by decide)⟩

/-- C9: both cart methods run their `finally` branch, so `isLoading` is
false after completion regardless of the fetch outcome. -/
theorem cart_isLoading_false_after_completion
    (s : CartState) (key : String) (qty : Int) (out : FetchOutcome) :
    (refreshCart s out).isLoading = false ∧
    (updateQuantity s key qty out).1.isLoading = false := by
  constructor
  · cases out with
    | response r => by_cases h : r.ok <;> simp [refreshCart, h]
    | netError => simp [refreshCart]
  · cases out with
    | response r => by_cases h : r.ok <;> simp [updateQuantity, h]
    | netError => simp [updateQuantity]

/-! ## Gallery and header claims -/

/-- C10: the `currentImage` accessor is total: within bounds it returns the
image at `currentIndex`, otherwise (negative index, index past the end, or
empty array) it returns null, never raising an error. -/
theorem currentImage_total_accessor (imgs : List ImageRef) (i : Int) :
    (∀ h : 0 ≤ i ∧ i < (imgs.length : Int),
      currentImage ⟨i, imgs⟩ = some (imgs.get ⟨i.toNat, by omega⟩)) ∧
    (¬ (0 ≤ i ∧ i < (imgs.length : Int)) → currentImage ⟨i, imgs⟩ = none) := by
  constructor
  · intro h
    have hlt : i.toNat < imgs.length := by omega
    simp [currentImage, jsIndex, h.1, List.get?_eq_get hlt]
  · intro h
    by_cases h0 : 0 ≤ i
    · have hge : imgs.length ≤ i.toNat := by omega
      simp [currentImage, jsIndex, h0, List.get?_eq_none.mpr hge]
      omega
    · simp [currentImage, jsIndex, h0]

/-- Witness for C10: a two-image gallery, index 1 (in bounds) and index 5
(out of bounds). -/
theorem currentImage_total_accessor_witness :
    currentImage ⟨1, [⟨"a"⟩, ⟨"b"⟩]⟩ = some ⟨"b"⟩ ∧
    currentImage ⟨5, [⟨"a"⟩, ⟨"b"⟩]⟩ = none :=
  ⟨(currentImage_total_accessor [⟨"a"⟩, ⟨"b"⟩] 1).1 ⟨by decide, by decide⟩,
   (currentImage_total_accessor [⟨"a"⟩, ⟨"b"⟩] 5).2 (by decide)⟩

/-- C4: `goTo(i)` is a no-op for `i < 0` or `i ≥ total` in both the gallery
and the rotator (both bounds are enforced in both components), and an
in-range `goTo(i)` sets `currentIndex = i`. -/
theorem goTo_bounds_enforced (gs : GalleryState) (gi : Int)
    (s : AnnState) (e : Env) (i : Int) :
    ((gi < 0 ∨ (gs.images.length : Int) ≤ gi) → galleryGoTo gs gi = gs) ∧
    ((0 ≤ gi ∧ gi < (gs.images.length : Int)) →
      (galleryGoTo gs gi).currentIndex = gi) ∧
    ((i < 0 ∨ s.totalMessages ≤ i) → (annGoTo s e i).1.currentIndex = s.currentIndex) ∧
    ((0 ≤ i ∧ i < s.totalMessages) → (annGoTo s e i).1.currentIndex = i) := by
  refine ⟨?_, ?_, ?_, ?_⟩
  · intro h
    have : ¬ (0 ≤ gi ∧ gi < (gs.images.length : Int)) := by omega
    simp [galleryGoTo, this]
  · intro h
    simp [galleryGoTo, h]
  · intro h
    have : ¬ (0 ≤ i ∧ i < s.totalMessages) := by omega
    simp [annGoTo, this]
  · intro h
    by_cases h1 : 1 < s.totalMessages <;>
      simp [annGoTo, h, h1, startRotation, stopRotation] <;>
      split <;> simp

/-- Witness for C4: a two-image gallery and a three-message rotator, probed
below, inside, and above the valid range. -/
theorem goTo_bounds_enforced_witness :
    (galleryGoTo ⟨0, [⟨"a"⟩, ⟨"b"⟩]⟩ (-1) = ⟨0, [⟨"a"⟩, ⟨"b"⟩]⟩) ∧
    ((galleryGoTo ⟨0, [⟨"a"⟩, ⟨"b"⟩]⟩ 1).currentIndex = 1) ∧
    ((annGoTo ⟨0, 3, 5000, none, false, false, "s", true⟩ ⟨[], 1⟩ 3).1.currentIndex = 0) ∧
    ((annGoTo ⟨0, 3, 5000, none, false, false, "s", true⟩ ⟨[], 1⟩ 2).1.currentIndex = 2) :=
  ⟨(goTo_bounds_enforced ⟨0, [⟨"a"⟩, ⟨"b"⟩]⟩ (-1)
      ⟨0, 3, 5000, none, false, false, "s", true⟩ ⟨[], 1⟩ 3).1 (by decide),
   (goTo_bounds_enforced ⟨0, [⟨"a"⟩, ⟨"b"⟩]⟩ 1
      ⟨0, 3, 5000, none, false, false, "s", true⟩ ⟨[], 1⟩ 3).2.1 (by decide),
   (goTo_bounds_enforced ⟨0, [⟨"a"⟩, ⟨"b"⟩]⟩ 1
      ⟨0, 3, 5000, none, false, false, "s", true⟩ ⟨[], 1⟩ 3).2.2.1 (by decide),
   (goTo_bounds_enforced ⟨0, [⟨"a"⟩, ⟨"b"⟩]⟩ 1
      ⟨0, 3, 5000, none, false, false, "s", true⟩ ⟨[], 1⟩ 2).2.2.2 (by decide)⟩

/-- `next()` on the rotator never changes `totalMessages`, hence neither do
its iterates. -/
theorem annNext_iterate_totalMessages (k : Nat) (s : AnnState) :
    ((annNext^[k]) s).totalMessages = s.totalMessages := by
  induction k with
  | zero => rfl
  | succ k ih =>
    rw [Function.iterate_succ_apply']
    simpa [annNext] using ih

/-- Iterating `next()` from index 0 on the rotator: after `k ≤ total`
steps the index is `k`, wrapping to 0 exactly at `k = total`. -/
theorem annNext_iterate_currentIndex (k : Nat) (s : AnnState)
    (h0 : s.currentIndex = 0) (h1 : 1 ≤ s.totalMessages)
    (hk : (k : Int) ≤ s.totalMessages) :
    ((annNext^[k]) s).currentIndex
      = if (k : Int) = s.totalMessages then 0 else (k : Int) := by
  induction k with
  | zero =>
    have : ¬ ((0 : Int) = s.totalMessages) := by omega
    simp [this, h0]
  | succ k ih =>
    have hk' : (k : Int) ≤ s.totalMessages := by push_cast at hk ⊢; omega
    have hklt : (k : Int) < s.totalMessages := by push_cast at hk; omega
    have hkne : ¬ ((k : Int) = s.totalMessages) := by omega
    rw [Function.iterate_succ_apply']
    have hidx : ((annNext^[k]) s).currentIndex = (k : Int) := by
      rw [ih hk']; simp [hkne]
    have htot := annNext_iterate_totalMessages k s
    have habs : (s.totalMessages.natAbs : Int) = s.totalMessages :=
      Int.natAbs_of_nonneg (by omega)
    have hstep : (annNext ((annNext^[k]) s)).currentIndex
        = jsMod ((k : Int) + 1) s.totalMessages := by
      rw [show (annNext ((annNext^[k]) s)).currentIndex
          = jsMod (((annNext^[k]) s).currentIndex + 1) ((annNext^[k]) s).totalMessages
          from rfl, hidx, htot]
    rw [hstep]
    by_cases hlast : (k : Int) + 1 = s.totalMessages
    · rw [show jsMod ((k : Int) + 1) s.totalMessages = 0 by
        rw [jsMod, if_pos (by omega), habs, hlast, Int.emod_self]]
      rw [if_pos (by push_cast; omega)]
    · rw [show jsMod ((k : Int) + 1) s.totalMessages = (k : Int) + 1 by
        rw [jsMod, if_pos (by omega), habs, Int.emod_eq_of_lt (by omega) (by omega)]]
      rw [if_neg (by push_cast; omega)]
      push_cast
      ring

/-- `next()` on the gallery never changes the image array, hence neither do
its iterates. -/
theorem galleryNext_iterate_images (k : Nat) (s : GalleryState) :
    ((galleryNext^[k]) s).images = s.images := by
  induction k with
  | zero => rfl
  | succ k ih =>
    rw [Function.iterate_succ_apply']
    by_cases h : ((galleryNext^[k]) s).isLast <;> simpa [galleryNext, h] using ih

/-- Iterating `next()` from index 0 on the gallery: after
`k ≤ images.length` steps the index is `k`, wrapping to 0 exactly at
`k = images.length`. -/
theorem galleryNext_iterate_currentIndex (k : Nat) (s : GalleryState)
    (h0 : s.currentIndex = 0) (h1 : 1 ≤ s.images.length)
    (hk : k ≤ s.images.length) :
    ((galleryNext^[k]) s).currentIndex
      = if k = s.images.length then 0 else (k : Int) := by
  induction k with
  | zero =>
    have : ¬ (0 = s.images.length) := by omega
    simp [this, h0]
  | succ k ih =>
    have hk' : k ≤ s.images.length := by omega
    have hklt : k < s.images.length := by omega
    have hkne : ¬ (k = s.images.length) := by omega
    rw [Function.iterate_succ_apply']
    have hidx : ((galleryNext^[k]) s).currentIndex = (k : Int) := by
      rw [ih hk']; simp [hkne]
    have himgs := galleryNext_iterate_images k s
    by_cases hlast : k + 1 = s.images.length
    · have hlastB : ((galleryNext^[k]) s).isLast = true := by
        simp [GalleryState.isLast, hidx, himgs]
        omega
      rw [show (galleryNext ((galleryNext^[k]) s)).currentIndex
          = if ¬ ((galleryNext^[k]) s).isLast then ((galleryNext^[k]) s).currentIndex + 1
            else 0 by rw [galleryNext]; split <;> simp_all]
      rw [hlastB]
      simp [hlast]
    · have hlastB : ((galleryNext^[k]) s).isLast = false := by
        simp [GalleryState.isLast, hidx, himgs]
        omega
      rw [show (galleryNext ((galleryNext^[k]) s)).currentIndex
          = if ¬ ((galleryNext^[k]) s).isLast then ((galleryNext^[k]) s).currentIndex + 1
            else 0 by rw [galleryNext]; split <;> simp_all]
      rw [hlastB, hidx]
      simp [hlast]

/-- C3: from index 0, `next()` visits only indices in `[0, total)`, returns
to 0 after exactly `total` calls, and not earlier when `total > 1` — in the
announcement rotator and likewise in the gallery with
`total = images.length`. -/
theorem next_cycles_through_range
    (s : AnnState) (h0 : s.currentIndex = 0) (h1 : 1 ≤ s.totalMessages)
    (g : GalleryState) (g0 : g.currentIndex = 0) (g1 : 1 ≤ g.images.length) :
    ((∀ k : Nat, (k : Int) ≤ s.totalMessages →
        0 ≤ ((annNext^[k]) s).currentIndex ∧
        ((annNext^[k]) s).currentIndex < s.totalMessages) ∧
      ((annNext^[s.totalMessages.toNat]) s).currentIndex = 0 ∧
      (∀ k : Nat, 0 < k → (k : Int) < s.totalMessages →
        ((annNext^[k]) s).currentIndex ≠ 0)) ∧
    ((∀ k : Nat, k ≤ g.images.length →
        0 ≤ ((galleryNext^[k]) g).currentIndex ∧
        ((galleryNext^[k]) g).currentIndex < (g.images.length : Int)) ∧
      ((galleryNext^[g.images.length]) g).currentIndex = 0 ∧
      (∀ k : Nat, 0 < k → k < g.images.length →
        ((galleryNext^[k]) g).currentIndex ≠ 0)) := by
  refine ⟨⟨?_, ?_, ?_⟩, ⟨?_, ?_, ?_⟩⟩
  · intro k hk
    rw [annNext_iterate_currentIndex k s h0 h1 hk]
    split <;> omega
  · have htoNat : ((s.totalMessages.toNat : Int)) = s.totalMessages := by omega
    rw [annNext_iterate_currentIndex s.totalMessages.toNat s h0 h1 (by omega)]
    simp [htoNat]
  · intro k hkpos hklt
    rw [annNext_iterate_currentIndex k s h0 h1 (by omega)]
    have : ¬ ((k : Int) = s.totalMessages) := by omega
    simp [this]
    omega
  · intro k hk
    rw [galleryNext_iterate_currentIndex k g g0 g1 hk]
    split <;> omega
  · rw [galleryNext_iterate_currentIndex g.images.length g g0 g1 (by omega)]
    simp
  · intro k hkpos hklt
    rw [galleryNext_iterate_currentIndex k g g0 g1 (by omega)]
    have : ¬ (k = g.images.length) := by omega
    simp [this]
    omega

/-- Witness for C3: a three-message rotator and a two-image gallery, probed
mid-cycle and at the wrap-around point. -/
theorem next_cycles_through_range_witness :
    (0 ≤ ((annNext^[2]) (freshAnn 3 5000 "s" true)).currentIndex ∧
      ((annNext^[2]) (freshAnn 3 5000 "s" true)).currentIndex < 3) ∧
    ((annNext^[3]) (freshAnn 3 5000 "s" true)).currentIndex = 0 ∧
    ((annNext^[2]) (freshAnn 3 5000 "s" true)).currentIndex ≠ 0 ∧
    ((galleryNext^[2]) ⟨0, [⟨"a"⟩, ⟨"b"⟩]⟩).currentIndex = 0 := by
  have h := next_cycles_through_range (freshAnn 3 5000 "s" true) rfl (by decide)
    ⟨0, [⟨"a"⟩, ⟨"b"⟩]⟩ rfl (by decide)
  exact ⟨h.1.1 2 (by decide), h.1.2.1, h.1.2.2 2 (by decide) (by decide), h.2.2.1⟩

/-- A non-empty separator that does not occur in `t` leaves `t` unsplit. -/
theorem jsSplitChF_no_occurrence (sep : List Char) (hne : sep ≠ []) (fuel : Nat) :
    ∀ t : List Char, ¬ sep <:+: t → t.length ≤ fuel →
      jsSplitChF sep fuel t = [t] := by
  induction fuel with
  | zero =>
    intro t hni hfuel
    cases t with
    | nil => rfl
    | cons c r => simp at hfuel
  | succ fuel ih =>
    intro t hni hfuel
    cases t with
    | nil => rfl
    | cons c r =>
      have hpre : ¬ (sep.isPrefixOf (c :: r) = true ∧ sep ≠ []) := by
        rintro ⟨hp, -⟩
        exact hni (List.isPrefixOf_iff_prefix.mp hp).isInfix
      have hr : jsSplitChF sep fuel r = [r] := by
        refine ih r (fun hi => hni (List.infix_cons hi)) ?_
        simpa using Nat.le_of_succ_le_succ (by simpa using hfuel)
      simp only [jsSplitChF, if_neg hpre, hr, List.modifyHead]

/-- Splitting `sep ++ t` on a non-empty `sep` that does not occur in `t`
yields exactly the two parts `[]` and `t`. -/
theorem jsSplitChF_append_no_occurrence (sep t : List Char) (hne : sep ≠ [])
    (hni : ¬ sep <:+: t) (fuel : Nat) (hfuel : (sep ++ t).length ≤ fuel) :
    jsSplitChF sep fuel (sep ++ t) = [[], t] := by
  obtain ⟨s0, sep', rfl⟩ : ∃ s0 sep', sep = s0 :: sep' := by
    cases sep with
    | nil => exact absurd rfl hne
    | cons a b => exact ⟨a, b, rfl⟩
  cases fuel with
  | zero => simp at hfuel
  | succ fuel =>
    have hpre : (s0 :: sep').isPrefixOf (s0 :: (sep' ++ t)) = true :=
      List.isPrefixOf_iff_prefix.mpr ⟨t, by simp⟩
    have hdrop : (sep' ++ t).drop ((s0 :: sep').length - 1) = t := by
      simp only [List.length_cons, Nat.succ_sub_one]
      exact List.drop_left sep' t
    rw [show (s0 :: sep') ++ t = s0 :: (sep' ++ t) from rfl]
    simp only [jsSplitChF]
    rw [hdrop, jsSplitChF_no_occurrence (s0 :: sep') hne fuel t hni
      (by simp at hfuel; omega)]
    simp [hpre]

/-- String-level version: JS `("; " ++ doc).split(sep)` with
`"; " ++ doc = sep ++ t` and `sep` not occurring in `t` gives
`["", t]`. -/
theorem jsSplit_append_eq (sep t : String) (hne : sep.data ≠ [])
    (hni : ¬ sep.data <:+: t.data) :
    jsSplit sep (sep ++ t) = ["", t] := by
  unfold jsSplit jsSplitCh
  rw [String.data_append sep t]
  rw [jsSplitChF_append_no_occurrence sep.data t.data hne hni _ le_rfl]
  have h2 : t.data.asString = t := String.asString_toList t
  simp only [List.map_cons, List.map_nil, h2]
  rfl

/-- `getCookie` reads back a cookie that is the sole entry of the jar:
the parse of `name=true` through the split-based parser returns `true`,
for every cookie name. -/
theorem getCookie_reads_written (name : String) :
    getCookie name (name ++ "=" ++ "true") = some "true" := by
  have hval : "; " ++ (name ++ "=" ++ "true") = ("; " ++ name ++ "=") ++ "true" := by
    simp [String.append_assoc]
  have hne : ("; " ++ name ++ "=").data ≠ [] := by
    simp [String.data_append]
  have hni : ¬ ("; " ++ name ++ "=").data <:+: "true".data := by
    intro h
    have hmem : ';' ∈ ("; " ++ name ++ "=").data := by
      rw [String.data_append, String.data_append]
      exact List.mem_append.mpr (Or.inl (List.mem_append.mpr (Or.inl (by decide))))
    have := h.subset hmem
    simp at this
  unfold getCookie
  rw [hval, jsSplit_append_eq ("; " ++ name ++ "=") "true" hne hni]
  rfl

/-- C5: dismissal round-trips through the cookie store:
`closeAnnouncement()` writes `announcement-<sectionId>-closed=true` with a
30-day horizon; a later `init()` of a fresh rotator with the same
`sectionId` and the close button shown reads it back, sets
`isClosed = true`, and never starts the rotation timer. -/
theorem dismissal_cookie_roundtrip (s : AnnState) (e : Env)
    (hjar : e.cookieJar = []) (total2 speed2 : Int) :
    (closeAnnouncement s e).2.cookieJar
        = [⟨annCookieName s.sectionId, "true", 30⟩] ∧
    (annInit (freshAnn total2 speed2 s.sectionId true)
        (closeAnnouncement s e).2).1.isClosed = true ∧
    (annInit (freshAnn total2 speed2 s.sectionId true)
        (closeAnnouncement s e).2).1.intervalId = none := by
  have hsec : (stopRotation { s with isClosed := true }).sectionId = s.sectionId := by
    unfold stopRotation
    split <;> rfl
  have hjar2 : (closeAnnouncement s e).2.cookieJar
      = [⟨annCookieName s.sectionId, "true", 30⟩] := by
    unfold closeAnnouncement
    simp [setCookie, hjar, hsec]
  refine ⟨hjar2, ?_, ?_⟩
  · have hdoc : cookieDocString [(⟨annCookieName s.sectionId, "true", 30⟩ : CookieEntry)]
        = annCookieName s.sectionId ++ "=" ++ "true" := rfl
    have hget := getCookie_reads_written (annCookieName s.sectionId)
    simp [annInit, freshAnn, hjar2, hdoc, hget]
  · have hdoc : cookieDocString [(⟨annCookieName s.sectionId, "true", 30⟩ : CookieEntry)]
        = annCookieName s.sectionId ++ "=" ++ "true" := rfl
    have hget := getCookie_reads_written (annCookieName s.sectionId)
    simp [annInit, freshAnn, hjar2, hdoc, hget]

/-- Witness for C5: close a two-message rotator with section id `hdr` on an
empty jar, then init a fresh three-message rotator for the same section. -/
theorem dismissal_cookie_roundtrip_witness :
    (closeAnnouncement ⟨0, 2, 5000, some 1, false, false, "hdr", true⟩ ⟨[], 5⟩).2.cookieJar
        = [⟨annCookieName "hdr", "true", 30⟩] ∧
    (annInit (freshAnn 3 4000 "hdr" true)
        (closeAnnouncement ⟨0, 2, 5000, some 1, false, false, "hdr", true⟩ ⟨[], 5⟩).2).1.isClosed
        = true ∧
    (annInit (freshAnn 3 4000 "hdr" true)
        (closeAnnouncement ⟨0, 2, 5000, some 1, false, false, "hdr", true⟩ ⟨[], 5⟩).2).1.intervalId
        = none :=
  dismissal_cookie_roundtrip ⟨0, 2, 5000, some 1, false, false, "hdr", true⟩ ⟨[], 5⟩
    rfl 3 4000

/-- C6: a timer tick while `isPaused` leaves `currentIndex` unchanged and
keeps the interval id (the interval is retained, not cleared); after
`resumeRotation`, a tick advances `currentIndex` by the `next()` rule. -/
theorem tick_paused_suspends_without_clearing (s : AnnState) (h : s.isPaused = true) :
    (annTick s).currentIndex = s.currentIndex ∧
    (annTick s).intervalId = s.intervalId ∧
    (annTick (resumeRotation s)).currentIndex
      = jsMod (s.currentIndex + 1) s.totalMessages := by
  refine ⟨?_, ?_, ?_⟩ <;> simp [annTick, resumeRotation, annNext, h]

/-- Witness for C6: a paused three-message rotator at index 1 with a live
interval. -/
theorem tick_paused_suspends_without_clearing_witness :
    (annTick ⟨1, 3, 5000, some 1, true, false, "s", true⟩).currentIndex = 1 ∧
    (annTick ⟨1, 3, 5000, some 1, true, false, "s", true⟩).intervalId = some 1 ∧
    (annTick (resumeRotation ⟨1, 3, 5000, some 1, true, false, "s", true⟩)).currentIndex
      = jsMod (1 + 1) 3 :=
  tick_paused_suspends_without_clearing ⟨1, 3, 5000, some 1, true, false, "s", true⟩
    (by decide)

/-- `stopRotation` always leaves the interval id null: it clears a set id
and is the identity when the id is already null. -/
theorem stopRotation_eq (s : AnnState) :
    stopRotation s = { s with intervalId := none } := by
  cases s with
  | mk ci tm rs iid ip ic sid scb => cases iid <;> simp [stopRotation]

/-- One step of the announcement-widget machine preserves the strengthened
rotation invariant, provided `startRotation` is not invoked directly and
`goTo` is only invoked while the widget is open. -/
theorem annInv_step (op : AnnOp) (r : AnnRun)
    (hop : op ≠ .startOp)
    (hgoto : ∀ i : Int, op = .goToOp i → r.st.isClosed = false)
    (hinv : annInv r) : annInv (applyOp op r) := by
  obtain ⟨hmain, haux⟩ := hinv
  cases op with
  | startOp => exact absurd rfl hop
  | stopOp =>
    refine ⟨?_, ?_⟩
    · simp [applyOp, stopRotation_eq]
    · intro h1 h2
      simp only [applyOp, stopRotation_eq] at h1 h2 ⊢
      exact haux h1 h2
  | destroyOp =>
    refine ⟨?_, ?_⟩
    · simp [applyOp, annDestroy, stopRotation_eq]
    · intro h1 h2
      simp only [applyOp, annDestroy, stopRotation_eq] at h1 h2 ⊢
      exact haux h1 h2
  | pauseOp =>
    refine ⟨?_, ?_⟩
    · simpa [applyOp, pauseRotation] using hmain
    · intro h1 h2
      simp only [applyOp, pauseRotation] at h1 h2 ⊢
      exact haux h1 h2
  | resumeOp =>
    refine ⟨?_, ?_⟩
    · simpa [applyOp, resumeRotation] using hmain
    · intro h1 h2
      simp only [applyOp, resumeRotation] at h1 h2 ⊢
      exact haux h1 h2
  | nextOp =>
    refine ⟨?_, ?_⟩
    · simpa [applyOp, annNext] using hmain
    · intro h1 h2
      simp only [applyOp, annNext] at h1 h2 ⊢
      exact haux h1 h2
  | prevOp =>
    refine ⟨?_, ?_⟩
    · simpa [applyOp, annPrevious] using hmain
    · intro h1 h2
      simp only [applyOp, annPrevious] at h1 h2 ⊢
      exact haux h1 h2
  | closeOp =>
    refine ⟨?_, ?_⟩
    · simp [applyOp, closeAnnouncement, stopRotation_eq]
    · intro h1 h2
      simp [applyOp, closeAnnouncement, stopRotation_eq]
  | goToOp i =>
    have hopen : r.st.isClosed = false := hgoto i rfl
    by_cases hrange : 0 ≤ i ∧ i < r.st.totalMessages
    · by_cases htot : 1 < r.st.totalMessages
      · refine ⟨?_, ?_⟩
        · simp [applyOp, annGoTo, hrange, htot, startRotation, stopRotation_eq, hopen]
        · intro h1 h2
          simp only [applyOp, annGoTo] at h1 h2 ⊢
          simp only [hrange, htot, if_pos, startRotation, stopRotation_eq] at h1 h2 ⊢
          exact haux (by simpa using h1) (by simpa using h2)
      · refine ⟨?_, ?_⟩
        · have : ¬ (1 < r.st.totalMessages) := htot
          simpa [applyOp, annGoTo, hrange, this] using hmain
        · intro h1 h2
          simp only [applyOp, annGoTo] at h1 h2 ⊢
          simp only [hrange, htot, if_pos, if_neg, not_false_iff] at h1 h2 ⊢
          exact haux (by simpa using h1) (by simpa using h2)
    · refine ⟨?_, ?_⟩
      · simpa [applyOp, annGoTo, hrange] using hmain
      · intro h1 h2
        simp only [applyOp, annGoTo] at h1 h2 ⊢
        simp only [hrange, if_neg, not_false_iff] at h1 h2 ⊢
        exact haux (by simpa using h1) (by simpa using h2)
  | initOp =>
    obtain ⟨⟨ci, tm, rs, iid, ip, ic, sid, scb⟩, ⟨jar, tid⟩, g⟩ := r
    cases scb with
    | true =>
      by_cases hcv : getCookie (annCookieName sid) (cookieDocString jar) = some "true"
      · cases iid with
        | some v =>
          have hic0 : ic = false := (hmain.mp rfl).2.1
          have hic1 : ic = true := haux rfl hcv
          rw [hic0] at hic1
          exact Bool.noConfusion hic1
        | none =>
          refine ⟨?_, ?_⟩
          · simp [applyOp, annInit, hcv]
          · intro h1 h2
            simp [applyOp, annInit, hcv]
      · by_cases htot : 1 < tm
        · refine ⟨?_, ?_⟩
          · simp [applyOp, annInit, hcv, htot, startRotation]
          · intro h1 h2
            simp [applyOp, annInit, hcv, htot, startRotation] at h2
        · cases iid with
          | some v => exact absurd (hmain.mp rfl).1 htot
          | none =>
            refine ⟨?_, ?_⟩
            · simp [applyOp, annInit, hcv, htot]
            · intro h1 h2
              simp [applyOp, annInit, hcv, htot] at h2
    | false =>
      cases ic with
      | true =>
        cases iid with
        | some v => exact Bool.noConfusion (hmain.mp rfl).2.1
        | none =>
          refine ⟨?_, ?_⟩
          · simp [applyOp, annInit]
          · intro h1 h2
            simp [applyOp, annInit] at h1
      | false =>
        by_cases htot : 1 < tm
        · refine ⟨?_, ?_⟩
          · simp [applyOp, annInit, htot, startRotation]
          · intro h1 h2
            simp [applyOp, annInit, htot, startRotation] at h1
        · refine ⟨?_, ?_⟩
          · cases iid with
            | some v => exact absurd (hmain.mp rfl).1 htot
            | none => simp [applyOp, annInit, htot]
          · intro h1 h2
            simp [applyOp, annInit, htot] at h1

/-- The strengthened rotation invariant holds right after `init()` runs on
a freshly attached widget (interval null, not closed, ghost flag clear). -/
theorem annInv_after_init (st : AnnState) (e : Env) (g : Bool)
    (hiid : st.intervalId = none) (hic : st.isClosed = false) (hg : g = false) :
    annInv (applyOp .initOp ⟨st, e, g⟩) := by
  obtain ⟨ci, tm, rs, iid, ip, ic, sid, scb⟩ := st
  obtain ⟨jar, tid⟩ := e
  simp only at hiid hic
  subst hiid hic hg
  cases scb with
  | true =>
    by_cases hcv : getCookie (annCookieName sid) (cookieDocString jar) = some "true"
    · refine ⟨?_, ?_⟩
      · simp [applyOp, annInit, hcv]
      · intro h1 h2
        simp [applyOp, annInit, hcv]
    · by_cases htot : 1 < tm
      · refine ⟨?_, ?_⟩
        · simp [applyOp, annInit, hcv, htot, startRotation]
        · intro h1 h2
          simp [applyOp, annInit, hcv, htot, startRotation] at h2
      · refine ⟨?_, ?_⟩
        · simp [applyOp, annInit, hcv, htot]
        · intro h1 h2
          simp [applyOp, annInit, hcv, htot] at h2
  | false =>
    by_cases htot : 1 < tm
    · refine ⟨?_, ?_⟩
      · simp [applyOp, annInit, htot, startRotation]
      · intro h1 h2
        simp [applyOp, annInit, htot, startRotation] at h1
    · refine ⟨?_, ?_⟩
      · simp [applyOp, annInit, htot]
      · intro h1 h2
        simp [applyOp, annInit, htot] at h1

/-- Running any operation sequence that avoids direct `startRotation` and
only calls `goTo` while open preserves the strengthened invariant. -/
theorem annInv_run (ops : List AnnOp) (r : AnnRun)
    (hstart : AnnOp.startOp ∉ ops)
    (hgoto : goToOnlyWhenOpen ops r = true)
    (hinv : annInv r) : annInv (runOps ops r) := by
  induction ops generalizing r with
  | nil => simpa [runOps] using hinv
  | cons op rest ih =>
    rw [show runOps (op :: rest) r = runOps rest (applyOp op r) from rfl]
    have h1 : op ≠ .startOp := fun h => hstart (h ▸ List.mem_cons_self op rest)
    have hsplit : (!(opIsGoTo op) || !r.st.isClosed) = true ∧
        goToOnlyWhenOpen rest (applyOp op r) = true := by
      have h := hgoto
      rw [goToOnlyWhenOpen, Bool.and_eq_true] at h
      exact h
    have h2 : ∀ i : Int, op = AnnOp.goToOp i → r.st.isClosed = false := by
      intro i hi
      subst hi
      simpa [opIsGoTo] using hsplit.1
    exact ih (applyOp op r)
      (fun hmem => hstart (List.mem_cons_of_mem op hmem)) hsplit.2
      (annInv_step op r h1 h2 hinv)

/-- C7 counterexample: the claimed invariant — `intervalId` non-null iff
`totalMessages > 1` and not closed and not manually stopped without a
restart — is false at reachable states.  A direct `startRotation()` on a
one-message widget sets the interval although `totalMessages ≤ 1`, and an
in-range `goTo` after `closeAnnouncement()` restarts the interval although
the widget is closed. -/
theorem rotation_invariant_claim_counterexample :
    (claimedRotationInv (runOps [.startOp]
        (applyOp .initOp ⟨freshAnn 1 5000 "s" true, ⟨[], 1⟩, false⟩)) = false ∧
      (runOps [.startOp]
        (applyOp .initOp ⟨freshAnn 1 5000 "s" true, ⟨[], 1⟩, false⟩)).st.intervalId.isSome
          = true ∧
      (runOps [.startOp]
        (applyOp .initOp ⟨freshAnn 1 5000 "s" true, ⟨[], 1⟩, false⟩)).st.totalMessages
          = 1) ∧
    (claimedRotationInv (runOps [.closeOp, .goToOp 0]
        (applyOp .initOp ⟨freshAnn 2 5000 "s" true, ⟨[], 1⟩, false⟩)) = false ∧
      (runOps [.closeOp, .goToOp 0]
        (applyOp .initOp ⟨freshAnn 2 5000 "s" true, ⟨[], 1⟩, false⟩)).st.intervalId.isSome
          = true ∧
      (runOps [.closeOp, .goToOp 0]
        (applyOp .initOp ⟨freshAnn 2 5000 "s" true, ⟨[], 1⟩, false⟩)).st.isClosed
          = true ∧
      (runOps [.closeOp, .goToOp 0]
        (applyOp .initOp ⟨freshAnn 2 5000 "s" true, ⟨[], 1⟩, false⟩)).stopped
          = false) := by
  decide

/-- C7 as amended: over every operation sequence from `init()` that does
not invoke `startRotation` directly and only invokes `goTo` while the
widget is not closed, `intervalId` is non-null iff `totalMessages > 1`,
the widget is not closed, and rotation was not manually stopped without a
subsequent restart. -/
theorem rotation_invariant_amended (total speed : Int) (sid : String)
    (scb : Bool) (jar0 : List CookieEntry) (tid0 : Nat) (ops : List AnnOp)
    (r0 : AnnRun)
    (hr0 : r0 = applyOp .initOp ⟨freshAnn total speed sid scb, ⟨jar0, tid0⟩, false⟩)
    (hstart : AnnOp.startOp ∉ ops)
    (hgoto : goToOnlyWhenOpen ops r0 = true) :
    (runOps ops r0).st.intervalId.isSome = true ↔
      (1 < (runOps ops r0).st.totalMessages ∧
        (runOps ops r0).st.isClosed = false ∧
        (runOps ops r0).stopped = false) := by
  subst hr0
  exact (annInv_run ops _ hstart hgoto
    (annInv_after_init (freshAnn total speed sid scb) ⟨jar0, tid0⟩ false rfl rfl rfl)).1

/-- Witness for the amended C7: a three-message widget runs `next`, an
in-range `goTo`, a tick-free pause/resume pair, then `closeAnnouncement`;
the final state has a null interval and is closed. -/
theorem rotation_invariant_amended_witness :
    (runOps [.nextOp, .goToOp 1, .pauseOp, .resumeOp, .closeOp]
        (applyOp .initOp ⟨freshAnn 3 5000 "w" true, ⟨[], 1⟩, false⟩)).st.intervalId.isSome
        = true ↔
      (1 < (runOps [.nextOp, .goToOp 1, .pauseOp, .resumeOp, .closeOp]
          (applyOp .initOp ⟨freshAnn 3 5000 "w" true, ⟨[], 1⟩, false⟩)).st.totalMessages ∧
        (runOps [.nextOp, .goToOp 1, .pauseOp, .resumeOp, .closeOp]
          (applyOp .initOp ⟨freshAnn 3 5000 "w" true, ⟨[], 1⟩, false⟩)).st.isClosed = false ∧
        (runOps [.nextOp, .goToOp 1, .pauseOp, .resumeOp, .closeOp]
          (applyOp .initOp ⟨freshAnn 3 5000 "w" true, ⟨[], 1⟩, false⟩)).stopped = false) :=
  rotation_invariant_amended 3 5000 "w" true [] 1
    [.nextOp, .goToOp 1, .pauseOp, .resumeOp, .closeOp] _ rfl (by decide) (by decide)

/-- C8: with sticky behavior enabled, a scroll event sets `isSticky`
exactly when the scroll offset has reached the recorded header offset; at
`headerOffsetTop = 200`, scrolling to 199 gives false and to 200 gives
true. -/
theorem handleScroll_sticky_threshold (s : HeaderState)
    (h : s.stickyEnabled = true) (scrollTop : Int) :
    ((handleScroll scrollTop s).isSticky = true ↔ s.headerOffsetTop ≤ scrollTop) ∧
    (s.headerOffsetTop = 200 →
      (handleScroll 199 s).isSticky = false ∧ (handleScroll 200 s).isSticky = true) := by
  constructor
  · simp [handleScroll]
  · intro h200
    simp [handleScroll, h200]

/-- Witness for C8: a sticky-enabled header recorded at offset 200. -/
theorem handleScroll_sticky_threshold_witness :
    ((handleScroll 250 ⟨false, false, true, 200⟩).isSticky = true ↔ (200 : Int) ≤ 250) ∧
    ((200 : Int) = 200 →
      (handleScroll 199 ⟨false, false, true, 200⟩).isSticky = false ∧
      (handleScroll 200 ⟨false, false, true, 200⟩).isSticky = true) :=
  handleScroll_sticky_threshold ⟨false, false, true, 200⟩ (by decide) 250

end Claudia
